import Mathlib

/-!
Shallow embedding of the safety-critical control core of silvia-pid
(src/pid-process.js and src/web-server.js), with theorems settling the
frozen claims about it. Temperatures, outputs and gains are modelled as
rationals (the JS code uses ordinary numeric comparisons and the claims
are about control flow, not rounding); timestamps are integers (ms);
PWM duties are integers. The out-of-process sensor driver, the GPIO
daemon and MongoDB are modelled as oracles/events: the tick returns the
ordered list of externally visible actions it performs.
-/

namespace SilviaPid

/-- Machine state labels of the classifier (`off`/`heating`/`ready`/`unknown`). -/
inductive MState where
  | off
  | heating
  | ready
  | unknown
deriving DecidableEq, Repr

/-- One entry of `temperatureHistory`: `{ temp, timestamp }`. -/
structure HEntry where
  temp : ℚ
  timestamp : ℤ
deriving DecidableEq, Repr

instance : Inhabited HEntry := ⟨⟨0, 0⟩⟩

/-! ### Constants (pid-process.js lines 42-121) -/

def MIN_TEMP : ℚ := 0
def MAX_TEMP_READING : ℚ := 200
def MAX_SAFE_TEMP : ℚ := 160
def MAX_CONSECUTIVE_FAILURES : ℕ := 5
def MAX_OUTPUT : ℤ := 255
def TEMP_HISTORY_SIZE : ℕ := 60
def RECOVERY_DROP_THRESHOLD : ℚ := 5
def RECOVERY_WINDOW_SECONDS : ℤ := 60
def STATE_UPDATE_THROTTLE_MS : ℤ := 5000
def OFF_STATE_RECORDING_INTERVAL_MS : ℤ := 180000
def STATE_DETECTION_WINDOW_MS : ℤ := 60000
def MIN_TEMP_FOR_HEATING : ℚ := 40
def MIN_TEMP_RISE : ℚ := 1
def MIN_TEMP_FALL : ℚ := -(3/10)
def TARGET_TOLERANCE_PERCENT : ℚ := 2/100

/-! ### State classifier (`shouldRecordReading`, pid-process.js lines 177-306)

The JS function both classifies the machine state and decides whether to
record, and as a side effect sets `previousMachineState` and calls
`updateMachineState`; here the classification/record decision is a pure
function returning `(state, shouldRecord)` and the side effects are
performed at the call sites inside `controlTick` below, in source order. -/

/-- The `else` branches used when not enough history exists
(pid-process.js lines 255-276 and 277-299, which are identical). -/
def simpleHeuristicClassify (temperature output target : ℚ) (offRecordDue : Bool) :
    MState × Bool :=
  let lowerBound := target - target * TARGET_TOLERANCE_PERCENT
  if temperature > 80 then
    if temperature ≥ lowerBound ∨ temperature ≥ target then (.ready, true)
    else (.heating, true)
  else if temperature ≥ lowerBound ∨ temperature ≥ target then (.ready, true)
  else if output > 20 ∧ temperature > MIN_TEMP_FOR_HEATING then (.heating, true)
  else (.off, offRecordDue)

/-- Classification and record decision of `shouldRecordReading`
(pid-process.js lines 177-299). `history` is `temperatureHistory`
(oldest first), `lastOffRec` is `lastOffStateRecording`.

Note: in the source, the "Priority 1" cooling-under-drive block
(lines 207-212) assigns `machineState = 'off'`, but the following chain
(lines 215-253) begins with a plain `if (temperature > 80.0)`, not
`else if`, and every one of its branches reassigns both `machineState`
and `shouldRecord`; the net result is therefore the value of that
second chain, which we model directly (the falling/off case survives
only through the chain's own `off` branches). -/
def shouldRecordReading (temperature output : ℚ) (now : ℤ) (target : ℚ)
    (history : List HEntry) (lastOffRec : ℤ) : MState × Bool :=
  let lowerBound := target - target * TARGET_TOLERANCE_PERCENT
  let offRecordDue := now - lastOffRec ≥ OFF_STATE_RECORDING_INTERVAL_MS
  if history.length ≥ 10 then
    let cutoffTime := now - STATE_DETECTION_WINDOW_MS
    let recentHistory := history.filter (fun h => h.timestamp ≥ cutoffTime)
    if recentHistory.length ≥ 2 then
      let oldestTemp := recentHistory.headI.temp
      let tempChange := temperature - oldestTemp
      let isRising := tempChange ≥ MIN_TEMP_RISE
      let isFalling := tempChange ≤ MIN_TEMP_FALL
      -- second chain (lines 215-253); the priority-1 assignment is
      -- overwritten by it in every case, see the doc comment
      if temperature > 80 then
        if temperature ≥ lowerBound ∨ temperature ≥ target then (.ready, true)
        else (.heating, true)
      else if temperature ≥ lowerBound ∨ temperature ≥ target then (.ready, true)
      else if isRising ∧ temperature > MIN_TEMP_FOR_HEATING then (.heating, true)
      else if output > 20 then
        if temperature > MIN_TEMP_FOR_HEATING then (.heating, true)
        else (.off, offRecordDue)
      else (.off, offRecordDue)
    else
      simpleHeuristicClassify temperature output target offRecordDue
  else
    simpleHeuristicClassify temperature output target offRecordDue

/-! ### Machine-state persistence (`updateMachineState`, pid-process.js lines 125-173) -/

/-- The mutable context of `updateMachineState`: the in-memory
`lastMachineState` / `lastStateUpdateTime` globals and the
`machine_state` / `machine_state_updated` fields written to config.json
(`machine_state_updated` is the ISO-8601 rendering of the write instant;
we store the instant itself). -/
structure PersistCtx where
  lastMachineState : Option MState
  lastStateUpdateTime : ℤ
  cfg_machine_state : Option MState
  cfg_machine_state_updated : Option ℤ
deriving DecidableEq, Repr

/-- `updateMachineState(newState)` at instant `now` (pid-process.js
lines 125-173), assuming the config.json write succeeds. Returns the new
context and whether a configuration write occurred. The throttle check
(line 129) runs before the change check (line 134). -/
def updateMachineState (σ : PersistCtx) (newState : MState) (now : ℤ) :
    PersistCtx × Bool :=
  if now - σ.lastStateUpdateTime < STATE_UPDATE_THROTTLE_MS then (σ, false)
  else if σ.lastMachineState = some newState then (σ, false)
  else
    ({ lastMachineState := some newState
       lastStateUpdateTime := now
       cfg_machine_state := some newState
       cfg_machine_state_updated := some now }, true)

/-! ### Sensor acquisition (`getTemp`, pid-process.js lines 722-805) -/

/-- Outcome of one invocation of the out-of-process temperature driver,
as observed by `getTemp`'s event handlers. A timeout kills the process,
whose `close` event then fires with a non-zero (null) code, so it
behaves like `exitNonZero`. -/
inductive DriverOutcome where
  /-- exit code 0 with a parseable decimal `t` on stdout (pre-validation) -/
  | ok (t : ℚ)
  /-- non-zero exit code (includes the 5 s timeout kill path) -/
  | exitNonZero
  /-- exit code 0 but output not parseable as a number (`isNaN`) -/
  | parseFail
  /-- the spawn itself failed (`error` event) -/
  | spawnFail
deriving DecidableEq, Repr

/-- Result of `getTemp` as seen by the control loop: a resolved
temperature or a rejected promise. -/
inductive SensorResult where
  | success (t : ℚ)
  | failure
deriving DecidableEq, Repr

/-- Externally visible actions of a control tick, in order. -/
inductive Action where
  /-- `boiler.analogWrite(d)` -/
  | writeDuty (d : ℤ)
  /-- `temperatureHistory.push(...)` -/
  | pushHistory (e : HEntry)
  /-- `pidController.calculate(...)` -/
  | pidStep
  /-- config.json write of `machine_state`/`machine_state_updated` -/
  | persistState (s : MState)
  /-- telemetry record buffered by `insert` (mode: true = recovery) -/
  | enqueueTelemetry (temperature outputPercent : ℚ) (recovery : Bool)
deriving DecidableEq, Repr

/-- The duties written to the actuator within a list of actions. -/
def writtenDuties (acts : List Action) : List ℤ :=
  acts.filterMap fun a =>
    match a with
    | .writeDuty d => some d
    | _ => none

/-- `getTemp` (pid-process.js lines 722-805): given the driver outcome
and the current `consecutiveFailures`, returns the sensor result, the
new `consecutiveFailures`, and the actuator actions it performs itself.
Only the non-zero-exit branch (lines 749-773) contains the
`consecutiveFailures >= MAX_CONSECUTIVE_FAILURES` shutdown write; the
parse (lines 777-782), range (lines 784-789) and spawn-error
(lines 798-803) branches only increment the counter. A valid in-range
reading resets the counter to 0 (line 792). -/
def getTemp (d : DriverOutcome) (consecutiveFailures : ℕ) :
    SensorResult × ℕ × List Action :=
  match d with
  | .exitNonZero =>
      let cf := consecutiveFailures + 1
      if cf ≥ MAX_CONSECUTIVE_FAILURES then (.failure, cf, [.writeDuty 0])
      else (.failure, cf, [])
  | .parseFail => (.failure, consecutiveFailures + 1, [])
  | .spawnFail => (.failure, consecutiveFailures + 1, [])
  | .ok t =>
      if t < MIN_TEMP ∨ t > MAX_TEMP_READING then
        (.failure, consecutiveFailures + 1, [])
      else (.success t, 0, [])

/-! ### Control loop (pid-process.js lines 569-720) -/

/-- The mutable state the 1 Hz control loop reads and writes across
ticks (module-level variables of pid-process.js). -/
structure CtrlState where
  consecutiveFailures : ℕ
  temperatureHistory : List HEntry
  inRecoveryPhase : Bool
  pidResetOnHeatingStart : Bool
  persist : PersistCtx
  previousMachineState : Option MState
  lastOffStateRecording : ℤ
deriving DecidableEq, Repr

/-- `Math.max(...recent.map(h => h.temp))`; the call site guards
`recent.length >= 2`, so the empty case (JS -Infinity) is inert. -/
def maxTempOf (l : List HEntry) : ℚ :=
  match l with
  | [] => 0
  | e :: rest => rest.foldl (fun a x => max a x.temp) e.temp

/-- Recovery-phase detection (pid-process.js lines 608-626), on the
history that already contains this tick's reading. -/
def recoveryDetected (history : List HEntry) (temperature : ℚ) (now : ℤ)
    (target : ℚ) : Bool :=
  if history.length ≥ 10 then
    let cutoffTime := now - RECOVERY_WINDOW_SECONDS * 1000
    let recentHistory := history.filter (fun h => h.timestamp ≥ cutoffTime)
    if recentHistory.length ≥ 2 then
      let maxTemp := maxTempOf recentHistory
      let tempDrop := maxTemp - temperature
      decide (tempDrop ≥ RECOVERY_DROP_THRESHOLD ∧ temperature < target ∧
        temperature < maxTemp)
    else false
  else false

/-- The successful-reading body of the control tick after the emergency
overtemp check (pid-process.js lines 599-711). `p1` is the (rounded)
value `pidController.calculate(temperature)` returns at line 637, `p2`
the one returned by the recomputation at line 652 after the off→heating
reset; both are oracles for the liquid-pid library, so every theorem
below holds for arbitrary PID outputs. -/
def nominalTick (σ : CtrlState) (temperature : ℚ) (now : ℤ) (target : ℚ)
    (p1 p2 : ℤ) : List Action × CtrlState :=
  -- push reading, trim history to TEMP_HISTORY_SIZE (lines 600-606)
  let hist1 := σ.temperatureHistory ++ [⟨temperature, now⟩]
  let hist2 := if hist1.length > TEMP_HISTORY_SIZE then hist1.tail else hist1
  -- recovery detection and hysteresis exit (lines 608-633)
  let rec0 := recoveryDetected hist2 temperature now target
  let rec1 := if σ.inRecoveryPhase ∧ temperature ≥ target - 5 then false else rec0
  -- switchPIDMode(rec1): inRecoveryPhase := rec1 (reinit is part of the
  -- PID oracle)
  let inRec := rec1
  -- SSROutput = Math.round(pidController.calculate(temperature)) (line 637)
  let ssr1 : ℤ := p1
  let outputPercent1 : ℚ := (ssr1 : ℚ) / (MAX_OUTPUT : ℚ) * 100
  -- first shouldRecordReading call (line 643): sets previousMachineState
  -- to the pre-update lastMachineState, then updateMachineState
  let prevMS := σ.persist.lastMachineState
  let stRec1 := shouldRecordReading temperature outputPercent1 now target hist2
    σ.lastOffStateRecording
  let currentState := stRec1.1
  let persistWrote1 := updateMachineState σ.persist currentState now
  -- off→heating transition reset (lines 647-654)
  let doReset := prevMS = some MState.off ∧ currentState = MState.heating ∧
    ¬σ.pidResetOnHeatingStart
  let ssr2 : ℤ := if doReset then p2 else ssr1
  let outputPercent2 : ℚ := if doReset then (p2 : ℚ) / (MAX_OUTPUT : ℚ) * 100
    else outputPercent1
  let resetFlag1 := if doReset then true else σ.pidResetOnHeatingStart
  -- flag re-armed when state returns to off (lines 657-659)
  let resetFlag2 := if currentState = MState.off then false else resetFlag1
  -- at-or-above-target override (lines 664-671)
  let ssr3 : ℤ := if temperature ≥ target then 0 else ssr2
  -- clamp to [0, MAX_OUTPUT] (line 688)
  let ssr4 : ℤ := max 0 (min MAX_OUTPUT ssr3)
  -- insert(temperature, outputPercent) (line 709) calls
  -- shouldRecordReading a second time (line 312), with the
  -- post-reset output percent
  let stRec2 := shouldRecordReading temperature outputPercent2 now target hist2
    σ.lastOffStateRecording
  let persistWrote2 := updateMachineState persistWrote1.1 stRec2.1 now
  let lastOffRec := if stRec2.2 ∧ stRec2.1 = MState.off then now
    else σ.lastOffStateRecording
  let acts :=
    [Action.pushHistory ⟨temperature, now⟩, Action.pidStep]
    ++ (if persistWrote1.2 then [Action.persistState currentState] else [])
    ++ (if doReset then [Action.pidStep] else [])
    ++ [Action.writeDuty ssr4]
    ++ (if persistWrote2.2 then [Action.persistState stRec2.1] else [])
    ++ (if stRec2.2 then [Action.enqueueTelemetry temperature outputPercent2 inRec]
        else [])
  (acts,
   { consecutiveFailures := σ.consecutiveFailures
     temperatureHistory := hist2
     inRecoveryPhase := inRec
     pidResetOnHeatingStart := resetFlag2
     persist := persistWrote2.1
     previousMachineState := persistWrote1.1.lastMachineState
     lastOffStateRecording := lastOffRec })

/-- One control tick (the `setInterval` body, pid-process.js
lines 569-720), with GPIO available. On a failed reading the `catch`
at line 713 performs no further action; on `temperature > MAX_SAFE_TEMP`
the emergency branch (lines 583-597) writes 0 and latches the failure
counter before the history push, recovery detection and PID step. -/
def controlTick (σ : CtrlState) (d : DriverOutcome) (now : ℤ) (target : ℚ)
    (p1 p2 : ℤ) : List Action × CtrlState :=
  let gt := getTemp d σ.consecutiveFailures
  match gt.1 with
  | .failure => (gt.2.2, { σ with consecutiveFailures := gt.2.1 })
  | .success temperature =>
      if temperature > MAX_SAFE_TEMP then
        ([.writeDuty 0], { σ with consecutiveFailures := MAX_CONSECUTIVE_FAILURES })
      else
        nominalTick { σ with consecutiveFailures := gt.2.1 } temperature now
          target p1 p2

/-- Run consecutive ticks, collecting each tick's action trace. -/
def runTicks (σ : CtrlState) (ds : List (DriverOutcome × ℤ)) (target : ℚ)
    (p1 p2 : ℤ) : List (List Action) × CtrlState :=
  match ds with
  | [] => ([], σ)
  | (d, now) :: rest =>
      let r := controlTick σ d now target p1 p2
      let rr := runTicks r.2 rest target p1 p2
      (r.1 :: rr.1, rr.2)

/-- The shutdown handler's actuator action (`exitHandler`,
pid-process.js lines 398-417): `boiler.analogWrite(0)` when GPIO is
available, nothing otherwise. -/
def exitHandlerActs (gpioAvailable : Bool) : List Action :=
  if gpioAvailable then [.writeDuty 0] else []

/-! ### Configuration load (`initializePID`, pid-process.js lines 423-515) -/

/-- The numeric PID configuration as resolved in memory by
`initializePID` (also the shape of `lastKnownGoodConfig`). -/
structure PidParams where
  target_temp : ℚ
  proportional : ℚ
  ki : ℚ
  derivative : ℚ
  recovery_proportional : ℚ
  recovery_ki : ℚ
  recovery_derivative : ℚ
deriving DecidableEq, Repr

/-- JS `x || dflt` on an optional number: `undefined`, and the falsy
number 0, select the default. -/
def jsOrNum (v : Option ℚ) (dflt : ℚ) : ℚ :=
  match v with
  | none => dflt
  | some x => if x = 0 then dflt else x

/-- A raw config.json as `initializePID` sees it after `JSON.parse`:
`none` stands for an absent or non-number field. -/
structure RawPidConfig where
  target_temperature : Option ℚ
  proportional : Option ℚ
  ki : Option ℚ
  derivative : Option ℚ
  recovery_proportional : Option ℚ
  recovery_ki : Option ℚ
  recovery_derivative : Option ℚ
deriving DecidableEq, Repr

/-- Outcome of `fs.readFileSync` + `JSON.parse` in `initializePID`. -/
inductive ConfigRead where
  | parsed (c : RawPidConfig)
  | unreadable
deriving DecidableEq, Repr

/-- Per-field validation of `initializePID`'s try branch
(pid-process.js lines 431-458): a number in `[lo, hi]` is kept,
otherwise `lastKnownGoodConfig?.field || dflt` (JS `||`, so an LKG
value of 0 also falls to the default). -/
def validField (v : Option ℚ) (lo hi : ℚ) (lkgVal : Option ℚ) (dflt : ℚ) : ℚ :=
  match v with
  | some x => if lo ≤ x ∧ x ≤ hi then x else jsOrNum lkgVal dflt
  | none => jsOrNum lkgVal dflt

/-- The compiled-in safe defaults of `initializePID`'s catch branch
when no last-known-good config exists (pid-process.js lines 487-494). -/
def catchBranchDefaults : PidParams :=
  { target_temp := 100
    proportional := 5/2
    ki := 1/20
    derivative := 10
    recovery_proportional := 4
    recovery_ki := 1/10
    recovery_derivative := 12 }

/-- `initializePID` (pid-process.js lines 423-515): resolves the active
parameters from the config read and the last-known-good snapshot, and
returns them with the updated `lastKnownGoodConfig` (the catch branch
leaves the snapshot unchanged). -/
def initializePID (read : ConfigRead) (lkg : Option PidParams) :
    PidParams × Option PidParams :=
  match read with
  | .parsed c =>
      let p : PidParams :=
        { target_temp := validField c.target_temperature 0 200
            (lkg.map (·.target_temp)) 100
          proportional := validField c.proportional 0 10
            (lkg.map (·.proportional)) 4
          ki := validField c.ki 0 5 (lkg.map (·.ki)) (1/10)
          derivative := validField c.derivative 0 100
            (lkg.map (·.derivative)) 5
          recovery_proportional := validField c.recovery_proportional 0 10
            (lkg.map (·.recovery_proportional)) 6
          recovery_ki := validField c.recovery_ki 0 5
            (lkg.map (·.recovery_ki)) (2/10)
          recovery_derivative := validField c.recovery_derivative 0 100
            (lkg.map (·.recovery_derivative)) 8 }
      (p, some p)
  | .unreadable =>
      match lkg with
      | some g => (g, some g)
      | none => (catchBranchDefaults, none)

/-! ### Web server: mode controller and command handlers
(src/web-server.js) -/

/-- Operating modes (`currentMode`). -/
inductive Mode where
  | off
  | espresso
  | steam
deriving DecidableEq, Repr

/-- Reasons carried by `mode_change` events. -/
inductive Reason where
  | manual
  | steam_timeout
deriving DecidableEq, Repr

/-- A `mode_change` event as emitted via `io.emit`. -/
structure ModeChangeEvent where
  mode : Mode
  reason : Reason
deriving DecidableEq, Repr

/-- The configuration fields the web server reads/writes; `none` stands
for an absent field. -/
structure WebConfig where
  target_temperature : Option ℚ
  espresso_temperature : Option ℚ
  steam_temperature : Option ℚ
  proportional : Option ℚ
  ki : Option ℚ
  derivative : Option ℚ
deriving DecidableEq, Repr

/-- Mode-controller state: `currentMode` and the steam watchdog
(`steamTimer`), modelled as its expiry deadline when armed. -/
structure ModeEnv where
  currentMode : Mode
  steamTimer : Option ℤ
deriving DecidableEq, Repr

def STEAM_TIMEOUT_MS : ℤ := 300000

/-- Setpoint resolution of `setMode` (web-server.js lines 439-448);
a stored preference of 0 is falsy in JS and falls to the default. -/
def resolveTargetTemp (cfg : WebConfig) (mode : Mode) : ℚ :=
  match mode with
  | .off => 0
  | .steam => jsOrNum cfg.steam_temperature 140
  | .espresso => jsOrNum cfg.espresso_temperature 100

/-- `setMode(mode, duration)` (web-server.js lines 431-485) at instant
`now`: writes the resolved target to config, updates `currentMode`,
cancels any steam timer, arms a new one for steam. Returns the new
config, the new mode state, and the `mode_change` events it emits
synchronously — the source emits none here; the only emission is in the
timer callback, modelled by `steamTimerFire`. -/
def setMode (cfg : WebConfig) (env : ModeEnv) (mode : Mode)
    (duration : Option ℤ) (now : ℤ) : WebConfig × ModeEnv × List ModeChangeEvent :=
  let targetTemp := resolveTargetTemp cfg mode
  let cfg1 := { cfg with target_temperature := some targetTemp }
  let env1 : ModeEnv :=
    if mode = Mode.steam then
      { currentMode := mode
        steamTimer := some (now + (match duration with
          | some s => s * 1000
          | none => STEAM_TIMEOUT_MS)) }
    else { currentMode := mode, steamTimer := none }
  (cfg1, env1, [])

/-- The steam watchdog callback (web-server.js lines 469-474): at its
deadline it invokes `setMode('espresso')` and then emits
`mode_change{mode: espresso, reason: steam_timeout}`. -/
def steamTimerFire (cfg : WebConfig) (env : ModeEnv) (now : ℤ) :
    WebConfig × ModeEnv × List ModeChangeEvent :=
  let r := setMode cfg env Mode.espresso none now
  (r.1, r.2.1, r.2.2 ++ [⟨Mode.espresso, Reason.steam_timeout⟩])

/-- Result of the `GET /api/pid/set/:p-:i-:d` handler. -/
inductive GainsResult where
  /-- HTTP 400, no configuration write -/
  | badRequest
  /-- HTTP 200 with the updated configuration written to disk -/
  | written (cfg : WebConfig)
deriving DecidableEq, Repr

/-- The `GET /api/pid/set/:p-:i-:d` handler (web-server.js
lines 223-268). `none` models a URL component `parseFloat` turns into
NaN. The handler validates only that all three are numbers and
non-negative (lines 230-242); any such triple is written to config. -/
def setGainsHandler (cfg : WebConfig) (p i d : Option ℚ) : GainsResult :=
  match p, i, d with
  | some p, some i, some d =>
      if p < 0 ∨ i < 0 ∨ d < 0 then .badRequest
      else .written { cfg with
        proportional := some p
        ki := some i
        derivative := some d }
  | _, _, _ => .badRequest

/-- The `GET /api/temp/set/:temp` handler (web-server.js lines 166-210):
validates `0 ≤ t ≤ 200`, writes `target_temperature` and the per-mode
preference for the current mode. `none` = invalid/NaN input, rejected. -/
def setTargetHandler (cfg : WebConfig) (currentMode : Mode) (t : Option ℚ) :
    Option WebConfig :=
  match t with
  | none => none
  | some t =>
      if t < 0 ∨ t > 200 then none
      else
        let cfg1 := { cfg with target_temperature := some t }
        some (match currentMode with
          | .espresso => { cfg1 with espresso_temperature := some t }
          | .steam => { cfg1 with steam_temperature := some t }
          | .off => cfg1)

/-- The mode-related fields of the `GET /api/mode` response
(web-server.js lines 570-596). -/
structure ModeReport where
  mode : Mode
  espresso_temperature : ℚ
  steam_temperature : ℚ
deriving DecidableEq, Repr

/-- `GET /api/mode` (web-server.js lines 570-596): reports steam iff the
watchdog is armed, and the per-mode preferences through the same JS `||`
defaults as `setMode`. -/
def getModeHandler (cfg : WebConfig) (env : ModeEnv) : ModeReport :=
  { mode := if env.steamTimer.isSome then Mode.steam else env.currentMode
    espresso_temperature := jsOrNum cfg.espresso_temperature 100
    steam_temperature := jsOrNum cfg.steam_temperature 140 }

/-! ### Concrete inputs used by counterexamples and witnesses -/

/-- Initial control-loop state at process start (the initial values of
the module-level variables of pid-process.js). -/
def startState : CtrlState :=
  { consecutiveFailures := 0
    temperatureHistory := []
    inRecoveryPhase := false
    pidResetOnHeatingStart := false
    persist := { lastMachineState := none, lastStateUpdateTime := 0,
                 cfg_machine_state := none, cfg_machine_state_updated := none }
    previousMachineState := none
    lastOffStateRecording := 0 }

/-- A configuration document with no recognized fields set. -/
def cfg0 : WebConfig := ⟨none, none, none, none, none, none⟩

/-- Mode-controller state: machine off, no steam watchdog armed. -/
def env0 : ModeEnv := ⟨Mode.off, none⟩

/-- A temperature window of 10 samples at 95 °C inside the 60 s
detection window ending at instant 100000: against a current reading of
90 °C the window rise is -5 °C. -/
def fallingHist : List HEntry :=
  [⟨95, 45000⟩, ⟨95, 45001⟩, ⟨95, 45002⟩, ⟨95, 45003⟩, ⟨95, 45004⟩,
   ⟨95, 45005⟩, ⟨95, 45006⟩, ⟨95, 45007⟩, ⟨95, 45008⟩, ⟨95, 45009⟩]

/-- A temperature window of 10 samples at 60 °C inside the 60 s
detection window ending at instant 100000: against a current reading of
50 °C the window rise is -10 °C. -/
def coolingHist : List HEntry :=
  [⟨60, 45000⟩, ⟨60, 45001⟩, ⟨60, 45002⟩, ⟨60, 45003⟩, ⟨60, 45004⟩,
   ⟨60, 45005⟩, ⟨60, 45006⟩, ⟨60, 45007⟩, ⟨60, 45008⟩, ⟨60, 45009⟩]

/-- A configuration whose stored steam preference is the number 0. -/
def cfgZeroSteam : WebConfig := ⟨some 100, some 100, some 0, none, none, none⟩

/-! ## Theorems -/

/-! ### Helper lemmas about the nominal tick body -/

/-- If the reading is at or above target, the only actuator write of the
nominal tick body is 0, whatever the PID oracle returned. -/
theorem nominalTick_at_target (σ : CtrlState) (t : ℚ) (now : ℤ) (target : ℚ)
    (p1 p2 : ℤ) (htar : t ≥ target) :
    writtenDuties (nominalTick σ t now target p1 p2).1 = [0] := by
  unfold nominalTick
  dsimp only
  simp only [if_pos htar]
  simp only [writtenDuties, List.filterMap_append, List.filterMap_cons,
    List.filterMap_nil]
  split_ifs <;> simp

/-- Every duty the nominal tick body writes lies in [0, MAX_OUTPUT],
thanks to the clamp at pid-process.js line 688. -/
theorem nominalTick_duty_bounds (σ : CtrlState) (t : ℚ) (now : ℤ) (target : ℚ)
    (p1 p2 : ℤ) (z : ℤ)
    (hz : z ∈ writtenDuties (nominalTick σ t now target p1 p2).1) :
    0 ≤ z ∧ z ≤ MAX_OUTPUT := by
  unfold nominalTick at hz
  dsimp only at hz
  simp only [writtenDuties, List.filterMap_append, List.filterMap_cons,
    List.filterMap_nil] at hz
  split_ifs at hz <;> simp at hz <;> subst hz <;>
    unfold MAX_OUTPUT <;> constructor <;> omega

/-! ### Claim C1 -/

/-- Claim C1: for every control tick whose (validated) sensor reading t
satisfies t > MAX_SAFE_TEMP = 160, the tick consists of exactly one
action — the actuator written 0 — so the write precedes the history
push, recovery detection and any PID step (which do not happen at all
that tick), and consecutive_failures is latched to
MAX_CONSECUTIVE_FAILURES = 5; all other state is untouched. -/
theorem controlTick_overtemp_emergency (σ : CtrlState) (now : ℤ) (target : ℚ)
    (p1 p2 : ℤ) (t : ℚ) (h1 : t > MAX_SAFE_TEMP) (h2 : t ≤ MAX_TEMP_READING) :
    controlTick σ (.ok t) now target p1 p2 =
      ([.writeDuty 0],
        { σ with consecutiveFailures := MAX_CONSECUTIVE_FAILURES }) := by
  have hnot : ¬(t < MIN_TEMP ∨ t > MAX_TEMP_READING) := by
    push_neg
    refine ⟨?_, h2⟩
    unfold MIN_TEMP
    unfold MAX_SAFE_TEMP at h1
    linarith
  simp only [controlTick, getTemp, if_neg hnot]
  simp only [if_pos h1]

/-- Witness for C1: a 170 °C reading from the start state. -/
theorem controlTick_overtemp_emergency_witness :
    controlTick startState (.ok 170) 1000 100 50 60 =
      ([.writeDuty 0],
        { startState with consecutiveFailures := MAX_CONSECUTIVE_FAILURES }) :=
  controlTick_overtemp_emergency startState 1000 100 50 60 170
    (by norm_num [MAX_SAFE_TEMP]) (by norm_num [MAX_TEMP_READING])

/-! ### Claim C2 -/

/-- Claim C2: for every control tick whose sensor reading t satisfies
t ≥ target_temperature, the duty written to the actuator that tick is 0,
for arbitrary PID-engine outputs p1 (first computation) and p2 (the
off→heating reset recomputation). -/
theorem controlTick_at_target_zero (σ : CtrlState) (now : ℤ) (target : ℚ)
    (p1 p2 : ℤ) (t : ℚ) (h1 : t ≥ target) (h2 : MIN_TEMP ≤ t)
    (h3 : t ≤ MAX_TEMP_READING) :
    writtenDuties (controlTick σ (.ok t) now target p1 p2).1 = [0] := by
  have hnot : ¬(t < MIN_TEMP ∨ t > MAX_TEMP_READING) := by
    push_neg
    exact ⟨h2, h3⟩
  simp only [controlTick, getTemp, if_neg hnot]
  by_cases hsafe : t > MAX_SAFE_TEMP
  · simp only [if_pos hsafe]
    rfl
  · simp only [if_neg hsafe]
    exact nominalTick_at_target _ _ _ _ _ _ h1

/-- Witness for C2: reading 105 °C against target 100 °C, with PID
oracles returning 50 and 60. -/
theorem controlTick_at_target_zero_witness :
    writtenDuties (controlTick startState (.ok 105) 1000 100 50 60).1 = [0] :=
  controlTick_at_target_zero startState 1000 100 50 60 105
    (by norm_num) (by norm_num [MIN_TEMP]) (by norm_num [MAX_TEMP_READING])

/-! ### Claim C3 -/

/-- Claim C3 (code bug): five consecutive sensor read failures of the
parse-error kind (driver exits 0 with unparseable output) drive
consecutive_failures to the shutdown threshold 5, yet no tick — in
particular not the tick of the 5th failure — performs any actuator
write at all: the shutdown write of getTemp exists only in the
non-zero-exit-code branch, so the heater is never commanded to 0,
contrary to the claim (and to SAFETY.md, which promises heater shutdown
after 5 consecutive failures of any kind). -/
theorem parse_failures_no_shutdown :
    (runTicks startState
      [(.parseFail, 1000), (.parseFail, 2000), (.parseFail, 3000),
       (.parseFail, 4000), (.parseFail, 5000)] 100 50 60).1 =
      [[], [], [], [], []] ∧
    (runTicks startState
      [(.parseFail, 1000), (.parseFail, 2000), (.parseFail, 3000),
       (.parseFail, 4000), (.parseFail, 5000)] 100 50 60).2.consecutiveFailures =
      MAX_CONSECUTIVE_FAILURES := by
  constructor
  · rfl
  · rfl

/-! ### Claim C4 -/

/-- Claim C4: on every control tick, every duty written to the actuator
is in [0, 255] — the nominal path clamps the PID output, the failure
and emergency paths write exactly 0 — and the shutdown handler
(exitHandler) writes only 0. -/
theorem actuator_duty_in_range :
    (∀ (σ : CtrlState) (d : DriverOutcome) (now : ℤ) (target : ℚ)
       (p1 p2 z : ℤ),
       z ∈ writtenDuties (controlTick σ d now target p1 p2).1 →
       0 ≤ z ∧ z ≤ MAX_OUTPUT) ∧
    (∀ (g : Bool) (z : ℤ), z ∈ writtenDuties (exitHandlerActs g) → z = 0) := by
  constructor
  · intro σ d now target p1 p2 z hz
    unfold controlTick at hz
    dsimp only at hz
    match d with
    | .exitNonZero =>
        simp only [getTemp] at hz
        split_ifs at hz <;> simp [writtenDuties] at hz <;> try subst hz
        · exact ⟨le_refl 0, by unfold MAX_OUTPUT; omega⟩
    | .parseFail => simp [getTemp, writtenDuties] at hz
    | .spawnFail => simp [getTemp, writtenDuties] at hz
    | .ok t =>
        by_cases hrange : (t < MIN_TEMP ∨ t > MAX_TEMP_READING)
        · simp [getTemp, if_pos hrange, writtenDuties] at hz
        · simp only [getTemp, if_neg hrange] at hz
          by_cases hsafe : t > MAX_SAFE_TEMP
          · simp only [if_pos hsafe] at hz
            simp [writtenDuties] at hz
            subst hz
            exact ⟨le_refl 0, by unfold MAX_OUTPUT; omega⟩
          · simp only [if_neg hsafe] at hz
            exact nominalTick_duty_bounds _ _ _ _ _ _ _ hz
  · intro g z hz
    cases g <;> simp [exitHandlerActs, writtenDuties] at hz
    exact hz

/-- Witness for C4: the 5th consecutive non-zero-exit failure writes
duty 0, which is in range. -/
theorem actuator_duty_in_range_witness :
    (0 : ℤ) ∈ writtenDuties
      (controlTick { startState with consecutiveFailures := 4 }
        .exitNonZero 1000 100 50 60).1 ∧
    (0 ≤ (0 : ℤ) ∧ (0 : ℤ) ≤ MAX_OUTPUT) :=
  ⟨by decide,
   actuator_duty_in_range.1 { startState with consecutiveFailures := 4 }
     .exitNonZero 1000 100 50 60 0 (by decide)⟩

/-! ### Claim C5 -/

/-- Counterexample to claim C5: at reading 90 °C with target 100 °C and
output percent 50, against a window that fell 5 °C over the last 60 s
(rise -5 ≤ -0.3 while 50 > 10), the classifier outputs heating, not
off: the rule is not applied with first-match-wins priority, because
the active-zone branch (temperature > 80) overrides it. -/
theorem classifier_cooling_cex :
    (90 : ℚ) -
      (fallingHist.filter
        (fun h => h.timestamp ≥ 100000 - STATE_DETECTION_WINDOW_MS)).headI.temp
      ≤ MIN_TEMP_FALL ∧
    (50 : ℚ) > 10 ∧ (90 : ℚ) > 80 ∧
    (shouldRecordReading 90 50 100000 100 fallingHist 0).1 = MState.heating ∧
    MState.heating ≠ MState.off := by
  refine ⟨?_, by norm_num, by norm_num, ?_, by decide⟩
  · norm_num [fallingHist, STATE_DETECTION_WINDOW_MS, MIN_TEMP_FALL,
      List.filter, List.headI]
  · norm_num [shouldRecordReading, fallingHist, STATE_DETECTION_WINDOW_MS,
      MIN_TEMP_FALL, MIN_TEMP_RISE, MIN_TEMP_FOR_HEATING,
      TARGET_TOLERANCE_PERCENT, OFF_STATE_RECORDING_INTERVAL_MS,
      List.filter, List.headI]

/-- Claim C5 as amended: with enough window history, a fall of at least
0.3 °C over the last 60 s under drive (output percent > 10) classifies
as off only when additionally the temperature is at most 80 °C, below
the 2 % target band and below target, and it is not the case that
output > 20 with temperature > 40; the lower-priority rules otherwise
override the cooling-under-drive rule. -/
theorem classifier_cooling_off (temperature output : ℚ) (now : ℤ)
    (target : ℚ) (history : List HEntry) (lastOffRec : ℤ)
    (hlen : history.length ≥ 10)
    (hrec : (history.filter
      (fun h => h.timestamp ≥ now - STATE_DETECTION_WINDOW_MS)).length ≥ 2)
    (hfall : temperature - (history.filter
      (fun h => h.timestamp ≥ now - STATE_DETECTION_WINDOW_MS)).headI.temp
      ≤ MIN_TEMP_FALL)
    (hdrive : output > 10)
    (h80 : temperature ≤ 80)
    (hlb : temperature < target - target * TARGET_TOLERANCE_PERCENT)
    (htg : temperature < target)
    (hnh : ¬(output > 20 ∧ temperature > MIN_TEMP_FOR_HEATING)) :
    (shouldRecordReading temperature output now target history lastOffRec).1 =
      MState.off := by
  unfold shouldRecordReading
  dsimp only
  rw [if_pos hlen, if_pos hrec]
  rw [if_neg (not_lt.mpr h80)]
  have hnotready : ¬(temperature ≥ target - target * TARGET_TOLERANCE_PERCENT ∨
      temperature ≥ target) := by
    push_neg
    exact ⟨hlb, htg⟩
  rw [if_neg hnotready]
  have hnotrising : ¬(temperature - (history.filter
      (fun h => h.timestamp ≥ now - STATE_DETECTION_WINDOW_MS)).headI.temp
        ≥ MIN_TEMP_RISE ∧ temperature > MIN_TEMP_FOR_HEATING) := by
    rintro ⟨hr, _⟩
    unfold MIN_TEMP_RISE at hr
    unfold MIN_TEMP_FALL at hfall
    linarith
  rw [if_neg hnotrising]
  by_cases hout : output > 20
  · rw [if_pos hout]
    rw [if_neg (fun h => hnh ⟨hout, h⟩)]
  · rw [if_neg hout]

/-- Witness for the amended C5: reading 50 °C falling from 60 °C under
output percent 15 classifies as off. -/
theorem classifier_cooling_off_witness :
    (50 : ℚ) -
      (coolingHist.filter
        (fun h => h.timestamp ≥ 100000 - STATE_DETECTION_WINDOW_MS)).headI.temp
      ≤ MIN_TEMP_FALL ∧
    (15 : ℚ) > 10 ∧
    (shouldRecordReading 50 15 100000 100 coolingHist 0).1 = MState.off := by
  have hfall : (50 : ℚ) -
      (coolingHist.filter
        (fun h => h.timestamp ≥ 100000 - STATE_DETECTION_WINDOW_MS)).headI.temp
      ≤ MIN_TEMP_FALL := by
    norm_num [coolingHist, STATE_DETECTION_WINDOW_MS, MIN_TEMP_FALL,
      List.filter, List.headI]
  refine ⟨hfall, by norm_num, ?_⟩
  exact classifier_cooling_off 50 15 100000 100 coolingHist 0
    (by decide) (by decide) hfall (by norm_num) (by norm_num)
    (by norm_num [TARGET_TOLERANCE_PERCENT]) (by norm_num)
    (by norm_num [MIN_TEMP_FOR_HEATING])

/-! ### Claim C6 -/

/-- Counterexample to claim C6: a classifier change (off → heating) only
1000 ms after the last persisted update is dropped by the 5 s throttle:
no configuration write occurs and the persisted state stays off. -/
theorem updateMachineState_throttled_cex :
    (some MState.off : Option MState) ≠ some MState.heating ∧
    updateMachineState ⟨some MState.off, 1000, some MState.off, some 500⟩
      MState.heating 2000 =
      (⟨some MState.off, 1000, some MState.off, some 500⟩, false) := by
  refine ⟨by decide, ?_⟩
  rfl

/-- Claim C6 as amended: on a tick where the classified state differs
from the last persisted state AND at least STATE_UPDATE_THROTTLE_MS =
5000 ms have elapsed since the last persisted update, the new state and
the write instant are persisted to the configuration document; changes
inside the throttle window are dropped. -/
theorem updateMachineState_change_persisted (σ : PersistCtx) (s : MState)
    (now : ℤ)
    (hthrottle : now - σ.lastStateUpdateTime ≥ STATE_UPDATE_THROTTLE_MS)
    (hchange : σ.lastMachineState ≠ some s) :
    updateMachineState σ s now =
      ({ lastMachineState := some s
         lastStateUpdateTime := now
         cfg_machine_state := some s
         cfg_machine_state_updated := some now }, true) := by
  unfold updateMachineState
  rw [if_neg (not_lt.mpr hthrottle), if_neg hchange]

/-- Witness for the amended C6: an off → heating change 6000 ms after
the last persisted update is written. -/
theorem updateMachineState_change_persisted_witness :
    updateMachineState ⟨some MState.off, 1000, some MState.off, some 500⟩
      MState.heating 7000 =
      ({ lastMachineState := some MState.heating
         lastStateUpdateTime := 7000
         cfg_machine_state := some MState.heating
         cfg_machine_state_updated := some 7000 }, true) :=
  updateMachineState_change_persisted _ _ _ (by decide) (by decide)

/-! ### Claim C7 -/

/-- Counterexample to claim C7: the operator-initiated transition
off → espresso performs the mode change but emits no mode_change event
at all (in particular none with reason manual). -/
theorem setMode_manual_no_event_cex :
    env0.currentMode ≠ Mode.espresso ∧
    (setMode cfg0 env0 Mode.espresso none 0).2.1.currentMode = Mode.espresso ∧
    (setMode cfg0 env0 Mode.espresso none 0).2.2 = [] := by
  refine ⟨by decide, ?_, ?_⟩ <;> rfl

/-- Claim C7 as amended: setMode itself emits no mode_change event on
any transition; the only mode_change emission is the steam watchdog
expiry callback, which transitions to espresso and emits exactly one
event with reason steam_timeout. -/
theorem mode_change_events_only_timeout :
    (∀ (cfg : WebConfig) (env : ModeEnv) (mode : Mode) (dur : Option ℤ)
       (now : ℤ), (setMode cfg env mode dur now).2.2 = []) ∧
    (∀ (cfg : WebConfig) (env : ModeEnv) (now : ℤ),
      (steamTimerFire cfg env now).2.2 =
        [⟨Mode.espresso, Reason.steam_timeout⟩]) := by
  constructor <;> intros <;> rfl

/-! ### Claim C8 -/

/-- Counterexample to claim C8: the set-gains endpoint accepts p = 11
(above the claimed bound p ≤ 10) and performs the configuration write. -/
theorem setGains_upper_bound_cex :
    (11 : ℚ) > 10 ∧
    setGainsHandler cfg0 (some 11) (some 0) (some 0) =
      .written { cfg0 with
        proportional := some 11, ki := some 0, derivative := some 0 } := by
  refine ⟨by norm_num, ?_⟩
  norm_num [setGainsHandler, cfg0]

/-- Claim C8 as amended: set_gains(p, i, d) results in a configuration
write exactly when all three inputs are numbers and non-negative; the
upper bounds p ≤ 10, i ≤ 5, d ≤ 100 are not checked by this endpoint
(they are enforced only by the per-parameter update endpoint). -/
theorem setGains_written_iff_nonneg (cfg : WebConfig) (p i d : Option ℚ) :
    (∃ c, setGainsHandler cfg p i d = .written c) ↔
      (∃ p0 i0 d0, p = some p0 ∧ i = some i0 ∧ d = some d0 ∧
        0 ≤ p0 ∧ 0 ≤ i0 ∧ 0 ≤ d0) := by
  rcases p with _ | p0
  · simp [setGainsHandler]
  rcases i with _ | i0
  · simp [setGainsHandler]
  rcases d with _ | d0
  · simp [setGainsHandler]
  constructor
  · rintro ⟨c, hc⟩
    simp only [setGainsHandler] at hc
    refine ⟨p0, i0, d0, rfl, rfl, rfl, ?_, ?_, ?_⟩ <;>
    · by_contra hlt
      push_neg at hlt
      rw [if_pos (by tauto)] at hc
      cases hc
  · rintro ⟨p0', i0', d0', hp, hi, hd, h1, h2, h3⟩
    cases hp
    cases hi
    cases hd
    have hnot : ¬(p0 < 0 ∨ i0 < 0 ∨ d0 < 0) := by
      push_neg
      exact ⟨h1, h2, h3⟩
    exact ⟨_, by simp only [setGainsHandler]; rw [if_neg hnot]⟩

/-- Witness for the amended C8: the in-range triple (4, 0.1, 5) is
accepted and written. -/
theorem setGains_written_iff_nonneg_witness :
    (∃ c, setGainsHandler cfg0 (some 4) (some (1/10)) (some 5) = .written c) :=
  (setGains_written_iff_nonneg cfg0 (some 4) (some (1/10)) (some 5)).mpr
    ⟨4, 1/10, 5, rfl, rfl, rfl, by norm_num, by norm_num, by norm_num⟩

/-! ### Claim C9 -/

/-- Counterexample to claim C9: with an unreadable configuration and no
last-known-good snapshot, the resolved gains differ from the table
defaults the claim states (Kp 4.0, Ki 0.1, Kd 5.0, recovery Kp 6.0). -/
theorem initializePID_catch_defaults_cex :
    (initializePID .unreadable none).1.proportional ≠ 4 ∧
    (initializePID .unreadable none).1.ki ≠ 1/10 ∧
    (initializePID .unreadable none).1.derivative ≠ 5 ∧
    (initializePID .unreadable none).1.recovery_proportional ≠ 6 := by
  refine ⟨?_, ?_, ?_, ?_⟩ <;>
    norm_num [initializePID, catchBranchDefaults]

/-- Claim C9 as amended: when the configuration cannot be read or parsed
and no last-known-good snapshot exists, the controller falls back to
the compiled-in catch-branch defaults target 100, Kp 2.5, Ki 0.05,
Kd 10.0, recovery Kp 4.0, recovery Ki 0.1, recovery Kd 12.0 (the §3
table values are instead the per-field fallbacks of the successful
parse path). -/
theorem initializePID_catch_defaults_eq :
    initializePID .unreadable none = (catchBranchDefaults, none) ∧
    catchBranchDefaults.target_temp = 100 ∧
    catchBranchDefaults.proportional = 5/2 ∧
    catchBranchDefaults.ki = 1/20 ∧
    catchBranchDefaults.derivative = 10 ∧
    catchBranchDefaults.recovery_proportional = 4 ∧
    catchBranchDefaults.recovery_ki = 1/10 ∧
    catchBranchDefaults.recovery_derivative = 12 :=
  ⟨rfl, rfl, rfl, rfl, rfl, rfl, rfl, rfl⟩

/-! ### Claim C10 -/

/-- Claim C10: a stored per-mode temperature preference equal to 0 is
treated as absent: with steam_temperature = 0, setMode(steam) resolves
the setpoint to the default 140 and writes it as the target (and with
espresso_temperature = 0, espresso resolves to 100); the mode report
shows the same defaults; and after set_target(0) while in steam mode, a
later setMode(steam) sets target 140, not 0. -/
theorem zero_mode_preference_uses_default (cfg : WebConfig) (env : ModeEnv)
    (dur : Option ℤ) (now : ℤ) :
    (cfg.steam_temperature = some 0 →
      resolveTargetTemp cfg Mode.steam = 140 ∧
      (getModeHandler cfg env).steam_temperature = 140 ∧
      (setMode cfg env Mode.steam dur now).1.target_temperature = some 140) ∧
    (cfg.espresso_temperature = some 0 →
      resolveTargetTemp cfg Mode.espresso = 100 ∧
      (getModeHandler cfg env).espresso_temperature = 100) ∧
    (∀ cfg2, setTargetHandler cfg Mode.steam (some 0) = some cfg2 →
      (setMode cfg2 env Mode.steam dur now).1.target_temperature = some 140) := by
  refine ⟨?_, ?_, ?_⟩
  · intro h
    refine ⟨?_, ?_, ?_⟩ <;>
      simp [resolveTargetTemp, getModeHandler, setMode, jsOrNum, h]
  · intro h
    constructor <;>
      simp [resolveTargetTemp, getModeHandler, jsOrNum, h]
  · intro cfg2 h
    have h0 : ¬((0:ℚ) < 0 ∨ (0:ℚ) > 200) := by norm_num
    simp only [setTargetHandler, if_neg h0, Option.some.injEq] at h
    subst h
    simp [setMode, resolveTargetTemp, jsOrNum]

/-- Witness for C10: a configuration storing steam_temperature = 0
resolves and writes the 140 default on entering steam mode. -/
theorem zero_mode_preference_uses_default_witness :
    cfgZeroSteam.steam_temperature = some 0 ∧
    resolveTargetTemp cfgZeroSteam Mode.steam = 140 ∧
    (setMode cfgZeroSteam env0 Mode.steam none 0).1.target_temperature =
      some 140 := by
  have h := zero_mode_preference_uses_default cfgZeroSteam env0 none 0
  exact ⟨rfl, (h.1 rfl).1, (h.1 rfl).2.2⟩

end SilviaPid
